import Mathlib

/-!
Shallow embedding of the per-packet load balancer of this repository
(src/src/internet/model/per-packet-load-balancer.{h,cc}).

The balancer subclasses ns-3's Ipv4StaticRouting.  The pieces of the
framework it touches are modelled explicitly:

* the inherited static routing table (GetNRoutes / GetRoute) becomes the
  field routes, a list of Ipv4RoutingTableEntry records in table order;
* Ipv4Address values are 32-bit machine words modelled as Nat, and
  Ipv4Address.CombineMask is bitwise AND;
* GetObject Ipv4 may fail (return null), so the aggregated Ipv4 object is
  passed as an Option Ipv4State; GetNAddresses / GetAddress appear as the
  per-interface address list, GetNetDevice as a per-interface device id;
* the out parameter sockerr and the returned Ptr Ipv4Route are folded into
  the RouteResult type: fallback stands for deferring to the base-class
  Ipv4StaticRouting RouteOutput (external framework code, reached when no
  route matches), unroutable stands for returning a null route with
  sockerr = Socket ERROR_NOROUTETOHOST, and route r stands for returning
  the constructed route with sockerr = ERROR_NOTERROR;
* indexing the std vector interfaces with operator[] is partial function
  application in C++: an out-of-range index is undefined behaviour, which
  the embedding makes explicit by returning none from RouteOutput.
-/

namespace Ns3LB

/-- Ipv4Address.CombineMask: bitwise AND of a 32-bit address and mask. -/
def combineMask (addr mask : Nat) : Nat :=
  Nat.land addr mask

/-- One row of the inherited Ipv4StaticRouting table, with the accessors
GetDest, GetDestNetworkMask, GetGateway, GetInterface used by the code. -/
structure Ipv4RoutingTableEntry where
  dest : Nat
  destNetworkMask : Nat
  gateway : Nat
  interface : Nat
deriving DecidableEq, Repr

/-- The match test of GetRouteInterfacesTo, lines 57-59 of the .cc file:
exact destination equality, or equality of the two addresses once both are
combined with the route's own network mask. -/
def routeMatches (route : Ipv4RoutingTableEntry) (dest : Nat) : Bool :=
  route.dest == dest ||
    combineMask route.dest route.destNetworkMask == combineMask dest route.destNetworkMask

/-- The mutable state of a PerPacketLoadBalancer object: the inherited
static routing table plus the three data members of the subclass
(m_currentInterfaceIndex, m_totalRoutes, and the declared but unused
random generator m_rand, whose abstract generator state is one Nat). -/
structure PerPacketLoadBalancer where
  routes : List Ipv4RoutingTableEntry
  m_currentInterfaceIndex : Nat
  m_totalRoutes : Nat
  m_rand : Nat
deriving DecidableEq, Repr

/-- The constructor PerPacketLoadBalancer(): index 0, total 0, and a table
already populated through AddNetworkRouteTo during configuration. -/
def mkPerPacketLoadBalancer (routes : List Ipv4RoutingTableEntry) (seed : Nat) :
    PerPacketLoadBalancer :=
  { routes := routes
    m_currentInterfaceIndex := 0
    m_totalRoutes := 0
    m_rand := seed }

/-- The loop body of GetRouteInterfacesTo: walk the table in order and push
the interface of every matching row. -/
def collectRouteInterfaces (dest : Nat) : List Ipv4RoutingTableEntry → List Nat
  | [] => []
  | route :: rest =>
      if routeMatches route dest then
        route.interface :: collectRouteInterfaces dest rest
      else
        collectRouteInterfaces dest rest

/-- GetRouteInterfacesTo (lines 43-67): all interfaces whose table row
matches the destination, in table iteration order. -/
def GetRouteInterfacesTo (b : PerPacketLoadBalancer) (dest : Nat) : List Nat :=
  collectRouteInterfaces dest b.routes

/-- The loop body of GetGatewayForInterface: first row whose interface and
destination both match; Ipv4Address.GetZero () when none does. -/
def findGatewayForInterface (interface dest : Nat) : List Ipv4RoutingTableEntry → Nat
  | [] => 0
  | route :: rest =>
      if route.interface == interface && routeMatches route dest then
        route.gateway
      else
        findGatewayForInterface interface dest rest

/-- GetGatewayForInterface (lines 69-88). -/
def GetGatewayForInterface (b : PerPacketLoadBalancer) (interface dest : Nat) : Nat :=
  findGatewayForInterface interface dest b.routes

/-- The Ipv4Header fields; RouteOutput reads only the destination. -/
structure Ipv4Header where
  source : Nat
  destination : Nat
  protocol : Nat
  ttl : Nat
deriving DecidableEq, Repr

/-- Packets are opaque to the decision engine; one Nat stands for the whole
buffer. -/
abbrev Packet := Nat

/-- The slice of the aggregated Ipv4 object the code reads: per-interface
configured addresses (GetNAddresses is the length, GetAddress i 0 the head)
and the per-interface net device handle. -/
structure Ipv4State where
  addresses : Nat → List Nat
  netDevice : Nat → Nat

/-- The Ipv4Route record built at lines 125-150.  SetSource is called only
when the selected interface has at least one address, so source is an
Option: none models the default-constructed, never-set source field. -/
structure Ipv4Route where
  source : Option Nat
  gateway : Nat
  destination : Nat
  outputDevice : Nat
deriving DecidableEq, Repr

/-- The three exits of RouteOutput: defer to the base class
Ipv4StaticRouting RouteOutput (no matching route), null route plus
sockerr = ERROR_NOROUTETOHOST (no aggregated Ipv4 object), or a built
route plus sockerr = ERROR_NOTERROR. -/
inductive RouteResult where
  | fallback
  | unroutable
  | route (r : Ipv4Route)
deriving DecidableEq, Repr

/-- Lines 136-150: build the Ipv4Route for the selected interface.  The
source is the first configured address when one exists (SetSource skipped
otherwise), the gateway comes from GetGatewayForInterface, and the output
device from Ipv4 GetNetDevice. -/
def buildRoute (st : Ipv4State) (b : PerPacketLoadBalancer)
    (dest selectedInterface : Nat) : Ipv4Route :=
  { source :=
      match st.addresses selectedInterface with
      | [] => none
      | a :: _ => some a
    gateway := GetGatewayForInterface b selectedInterface dest
    destination := dest
    outputDevice := st.netDevice selectedInterface }

/-- RouteOutput (lines 90-159).  The result is none exactly when the code
performs the out-of-range std vector access interfaces[m_currentInterfaceIndex]
(undefined behaviour in C++); otherwise some (result, packet, new object
state).  The packet is threaded through untouched because the code never
reads or writes it on the load-balanced path. -/
def RouteOutput (b : PerPacketLoadBalancer) (ipv4 : Option Ipv4State)
    (header : Ipv4Header) (oif : Nat) (p : Packet) :
    Option (RouteResult × Packet × PerPacketLoadBalancer) :=
  let destAddress := header.destination
  let interfaces := GetRouteInterfacesTo b destAddress
  if interfaces.isEmpty then
    some (RouteResult.fallback, p, b)
  else
    let b1 :=
      if b.m_totalRoutes = 0 then
        { b with m_totalRoutes := interfaces.length }
      else
        b
    match interfaces.get? b1.m_currentInterfaceIndex with
    | none => none
    | some selectedInterface =>
        let b2 :=
          { b1 with
              m_currentInterfaceIndex :=
                (b1.m_currentInterfaceIndex + 1) % b1.m_totalRoutes }
        match ipv4 with
        | none => some (RouteResult.unroutable, p, b2)
        | some st =>
            some (RouteResult.route (buildRoute st b2 destAddress selectedInterface), p, b2)

/-- Iterated RouteOutput: the same header (hence destination) n times in a
row, threading the object state; none as soon as one call hits the
undefined-behaviour case.  Returns the final state and the list of
per-call results in call order. -/
def runCalls (ipv4 : Option Ipv4State) (header : Ipv4Header) (oif : Nat) (p : Packet) :
    PerPacketLoadBalancer → Nat → Option (PerPacketLoadBalancer × List RouteResult)
  | b, 0 => some (b, [])
  | b, n + 1 =>
      match RouteOutput b ipv4 header oif p with
      | none => none
      | some (res, _, b') =>
          match runCalls ipv4 header oif p b' n with
          | none => none
          | some (bf, results) => some (bf, res :: results)

/-- A concrete Ipv4 object used by witnesses: every interface has the one
configured address 5, and the device id of interface i is i. -/
def st0 : Ipv4State :=
  { addresses := fun _ => [5], netDevice := fun i => i }

/-- A concrete Ipv4 object with no configured address on any interface. -/
def stNoAddr : Ipv4State :=
  { addresses := fun _ => [], netDevice := fun i => i }

/-- Four equal-cost routes to the network 8/252 via interfaces 1..4. -/
def routes4 : List Ipv4RoutingTableEntry :=
  [ { dest := 8, destNetworkMask := 252, gateway := 101, interface := 1 }
  , { dest := 8, destNetworkMask := 252, gateway := 102, interface := 2 }
  , { dest := 8, destNetworkMask := 252, gateway := 103, interface := 3 }
  , { dest := 8, destNetworkMask := 252, gateway := 104, interface := 4 } ]

/-- A header whose destination 9 lies in the network 8/252. -/
def hdr9 : Ipv4Header :=
  { source := 1, destination := 9, protocol := 6, ttl := 64 }

/-! Helper lemmas shared by the claim proofs. -/

theorem getRouteInterfacesTo_congr (b b' : PerPacketLoadBalancer)
    (hr : b.routes = b'.routes) (dest : Nat) :
    GetRouteInterfacesTo b dest = GetRouteInterfacesTo b' dest := by
  unfold GetRouteInterfacesTo
  rw [hr]

theorem buildRoute_congr (st : Ipv4State) (b b' : PerPacketLoadBalancer)
    (hr : b.routes = b'.routes) (dest sel : Nat) :
    buildRoute st b dest sel = buildRoute st b' dest sel := by
  unfold buildRoute GetGatewayForInterface
  rw [hr]

theorem get?_of_lt : ∀ (l : List Nat) (i : Nat), i < l.length → l.get? i = some (l.getD i 0)
  | _ :: _, 0, _ => rfl
  | _ :: as, i + 1, h => get?_of_lt as i (Nat.lt_of_succ_lt_succ h)

/-- RouteOutput when no route matches: the code returns the base-class
lookup before touching any data member. -/
theorem routeOutput_of_empty (b : PerPacketLoadBalancer) (ipv4 : Option Ipv4State)
    (header : Ipv4Header) (oif : Nat) (p : Packet)
    (hnil : GetRouteInterfacesTo b header.destination = []) :
    RouteOutput b ipv4 header oif p = some (RouteResult.fallback, p, b) := by
  simp only [RouteOutput, hnil, List.isEmpty_nil, if_true]

/-- RouteOutput in the selection branch when m_totalRoutes is already
nonzero: no latch, the cursor advances modulo the stored total. -/
theorem routeOutput_step (b : PerPacketLoadBalancer) (ipv4 : Option Ipv4State)
    (header : Ipv4Header) (oif : Nat) (p : Packet) (sel : Nat)
    (hT : b.m_totalRoutes ≠ 0)
    (hget : (GetRouteInterfacesTo b header.destination).get? b.m_currentInterfaceIndex =
      some sel) :
    RouteOutput b ipv4 header oif p =
      some ((match ipv4 with
             | none => RouteResult.unroutable
             | some st =>
                 RouteResult.route (buildRoute st
                   { b with m_currentInterfaceIndex :=
                       (b.m_currentInterfaceIndex + 1) % b.m_totalRoutes }
                   header.destination sel)),
            p,
            { b with m_currentInterfaceIndex :=
                (b.m_currentInterfaceIndex + 1) % b.m_totalRoutes }) := by
  have hne : (GetRouteInterfacesTo b header.destination).isEmpty = false := by
    cases hL : GetRouteInterfacesTo b header.destination with
    | nil => rw [hL] at hget; simp at hget
    | cons a as => rfl
  simp only [RouteOutput, hne, Bool.false_eq_true, if_false, if_neg hT, hget]
  cases ipv4 <;> rfl

/-- RouteOutput in the selection branch of the first call that sees a
non-empty candidate list: m_totalRoutes is latched to that list's length
and the cursor advances modulo the latched value. -/
theorem routeOutput_step_latch (b : PerPacketLoadBalancer) (ipv4 : Option Ipv4State)
    (header : Ipv4Header) (oif : Nat) (p : Packet) (sel : Nat)
    (hT : b.m_totalRoutes = 0)
    (hget : (GetRouteInterfacesTo b header.destination).get? b.m_currentInterfaceIndex =
      some sel) :
    RouteOutput b ipv4 header oif p =
      some ((match ipv4 with
             | none => RouteResult.unroutable
             | some st =>
                 RouteResult.route (buildRoute st
                   { b with
                       m_totalRoutes := (GetRouteInterfacesTo b header.destination).length,
                       m_currentInterfaceIndex :=
                         (b.m_currentInterfaceIndex + 1) %
                           (GetRouteInterfacesTo b header.destination).length }
                   header.destination sel)),
            p,
            { b with
                m_totalRoutes := (GetRouteInterfacesTo b header.destination).length,
                m_currentInterfaceIndex :=
                  (b.m_currentInterfaceIndex + 1) %
                    (GetRouteInterfacesTo b header.destination).length }) := by
  have hne : (GetRouteInterfacesTo b header.destination).isEmpty = false := by
    cases hL : GetRouteInterfacesTo b header.destination with
    | nil => rw [hL] at hget; simp at hget
    | cons a as => rfl
  simp only [RouteOutput, hne, Bool.false_eq_true, if_false, if_pos hT, hget]
  cases ipv4 <;> rfl

/-- RouteOutput when the stored cursor is outside the current candidate
list: the code performs an out-of-range std vector access, modelled as
none. -/
theorem routeOutput_of_get_none (b : PerPacketLoadBalancer) (ipv4 : Option Ipv4State)
    (header : Ipv4Header) (oif : Nat) (p : Packet)
    (hne : GetRouteInterfacesTo b header.destination ≠ [])
    (hget : (GetRouteInterfacesTo b header.destination).get? b.m_currentInterfaceIndex =
      none) :
    RouteOutput b ipv4 header oif p = none := by
  have hE : (GetRouteInterfacesTo b header.destination).isEmpty = false := by
    cases hL : GetRouteInterfacesTo b header.destination with
    | nil => exact absurd hL hne
    | cons a as => rfl
  by_cases hT : b.m_totalRoutes = 0
  · simp only [RouteOutput, hE, Bool.false_eq_true, if_false, if_pos hT, hget]
  · simp only [RouteOutput, hE, Bool.false_eq_true, if_false, if_neg hT, hget]

/-- The packet argument is pure ballast: every call equals the call with
packet 0, with the input packet substituted back into the result. -/
theorem routeOutput_packet_param (b : PerPacketLoadBalancer) (ipv4 : Option Ipv4State)
    (header : Ipv4Header) (oif : Nat) (p : Packet) :
    RouteOutput b ipv4 header oif p =
      (RouteOutput b ipv4 header oif 0).map (fun t => (t.1, p, t.2.2)) := by
  by_cases hnil : GetRouteInterfacesTo b header.destination = []
  · rw [routeOutput_of_empty b ipv4 header oif p hnil,
      routeOutput_of_empty b ipv4 header oif 0 hnil]
    rfl
  · cases hget : (GetRouteInterfacesTo b header.destination).get? b.m_currentInterfaceIndex with
    | none =>
        rw [routeOutput_of_get_none b ipv4 header oif p hnil hget,
          routeOutput_of_get_none b ipv4 header oif 0 hnil hget]
        rfl
    | some sel =>
        by_cases hT : b.m_totalRoutes = 0
        · rw [routeOutput_step_latch b ipv4 header oif p sel hT hget,
            routeOutput_step_latch b ipv4 header oif 0 sel hT hget]
          cases ipv4 <;> rfl
        · rw [routeOutput_step b ipv4 header oif p sel hT hget,
            routeOutput_step b ipv4 header oif 0 sel hT hget]
          cases ipv4 <;> rfl

/-- The collecting loop is the filter of the table by the match test
followed by the projection to interfaces. -/
theorem collectRouteInterfaces_eq_filter_map (dest : Nat) :
    ∀ rs : List Ipv4RoutingTableEntry,
      collectRouteInterfaces dest rs =
        (rs.filter (fun route => routeMatches route dest)).map (fun route => route.interface)
  | [] => rfl
  | route :: rest => by
      by_cases hm : routeMatches route dest
      · simp [collectRouteInterfaces, List.filter_cons, hm,
          collectRouteInterfaces_eq_filter_map dest rest]
      · simp [collectRouteInterfaces, List.filter_cons, hm,
          collectRouteInterfaces_eq_filter_map dest rest]

/-! Claim theorems. -/

/-- Claim C5: for every destination, GetRouteInterfacesTo returns exactly
the interfaces of the table rows whose destination equals the queried
address exactly or whose (destination, mask) network contains it, in table
order; in particular the result is empty exactly when no row matches. -/
theorem getRouteInterfacesTo_exact_matches (b : PerPacketLoadBalancer) (dest : Nat) :
    GetRouteInterfacesTo b dest =
      (b.routes.filter (fun route =>
        route.dest == dest ||
          combineMask route.dest route.destNetworkMask ==
            combineMask dest route.destNetworkMask)).map
        (fun route => route.interface) ∧
    (GetRouteInterfacesTo b dest = [] ↔
      ∀ route ∈ b.routes,
        ¬(route.dest = dest ∨
          combineMask route.dest route.destNetworkMask =
            combineMask dest route.destNetworkMask)) := by
  have h1 : GetRouteInterfacesTo b dest =
      (b.routes.filter (fun route => routeMatches route dest)).map
        (fun route => route.interface) :=
    collectRouteInterfaces_eq_filter_map dest b.routes
  refine ⟨h1, ?_⟩
  rw [h1, List.map_eq_nil_iff, List.filter_eq_nil_iff]
  simp only [routeMatches, Bool.or_eq_true, beq_iff_eq]

/-- Claim C3: when the destination matches no route in the table,
RouteOutput defers to the base-class static-routing lookup (the fallback
result, with the balancer state untouched), and never yields the
unroutable outcome (null route with socket error). -/
theorem routeOutput_no_match_falls_back (b : PerPacketLoadBalancer)
    (ipv4 : Option Ipv4State) (header : Ipv4Header) (oif : Nat) (p : Packet)
    (hnil : GetRouteInterfacesTo b header.destination = []) :
    RouteOutput b ipv4 header oif p = some (RouteResult.fallback, p, b) ∧
    ∀ res p' b', RouteOutput b ipv4 header oif p = some (res, p', b') →
      res ≠ RouteResult.unroutable := by
  have h := routeOutput_of_empty b ipv4 header oif p hnil
  refine ⟨h, ?_⟩
  intro res p' b' hro
  rw [h] at hro
  simp only [Option.some.injEq, Prod.mk.injEq] at hro
  rw [← hro.1]
  exact fun hcon => RouteResult.noConfusion hcon

/-- Claim C6: in any successful call, an empty candidate list leaves the
state untouched; a non-empty candidate list latches m_totalRoutes to the
current candidate count only when the stored total is still 0 and
preserves it otherwise, and the cursor is advanced modulo that stored
total (not modulo the current candidate count); the route table is never
modified. -/
theorem totalRoutes_latch_and_cursor_advance (b : PerPacketLoadBalancer)
    (ipv4 : Option Ipv4State) (header : Ipv4Header) (oif : Nat) (p : Packet)
    (res : RouteResult) (p' : Packet) (b' : PerPacketLoadBalancer)
    (hro : RouteOutput b ipv4 header oif p = some (res, p', b')) :
    (GetRouteInterfacesTo b header.destination = [] → b' = b) ∧
    (GetRouteInterfacesTo b header.destination ≠ [] →
      b'.m_totalRoutes =
        (if b.m_totalRoutes = 0 then (GetRouteInterfacesTo b header.destination).length
         else b.m_totalRoutes) ∧
      b'.m_currentInterfaceIndex = (b.m_currentInterfaceIndex + 1) % b'.m_totalRoutes ∧
      b'.routes = b.routes) := by
  by_cases hnil : GetRouteInterfacesTo b header.destination = []
  · rw [routeOutput_of_empty b ipv4 header oif p hnil] at hro
    simp only [Option.some.injEq, Prod.mk.injEq] at hro
    exact ⟨fun _ => hro.2.2.symm, fun hcon => absurd hnil hcon⟩
  · refine ⟨fun hcon => absurd hcon hnil, fun _ => ?_⟩
    cases hget : (GetRouteInterfacesTo b header.destination).get?
        b.m_currentInterfaceIndex with
    | none =>
        rw [routeOutput_of_get_none b ipv4 header oif p hnil hget] at hro
        cases hro
    | some sel =>
        by_cases hT : b.m_totalRoutes = 0
        · rw [routeOutput_step_latch b ipv4 header oif p sel hT hget] at hro
          simp only [Option.some.injEq, Prod.mk.injEq] at hro
          rw [← hro.2.2, if_pos hT]
          exact ⟨rfl, rfl, rfl⟩
        · rw [routeOutput_step b ipv4 header oif p sel hT hget] at hro
          simp only [Option.some.injEq, Prod.mk.injEq] at hro
          rw [← hro.2.2, if_neg hT]
          exact ⟨rfl, rfl, rfl⟩

/-- Claim C9: every call leaves the packet argument untouched (the packet
component of the result is the input packet), the decision reads nothing
of the header but its destination address, and the decision and state are
independent of the packet contents. -/
theorem routeOutput_packet_frame (b : PerPacketLoadBalancer) (ipv4 : Option Ipv4State)
    (header header' : Ipv4Header) (oif : Nat) (p q : Packet) :
    (∀ res p' b', RouteOutput b ipv4 header oif p = some (res, p', b') → p' = p) ∧
    (header.destination = header'.destination →
      RouteOutput b ipv4 header oif p = RouteOutput b ipv4 header' oif p) ∧
    (RouteOutput b ipv4 header oif p).map (fun t => (t.1, t.2.2)) =
      (RouteOutput b ipv4 header oif q).map (fun t => (t.1, t.2.2)) := by
  refine ⟨?_, ?_, ?_⟩
  · intro res p' b' hro
    rw [routeOutput_packet_param b ipv4 header oif p] at hro
    cases hbase : RouteOutput b ipv4 header oif 0 with
    | none => rw [hbase] at hro; cases hro
    | some t =>
        rw [hbase] at hro
        simp only [Option.map_some', Option.some.injEq, Prod.mk.injEq] at hro
        exact hro.2.1.symm
  · intro hdest
    unfold RouteOutput
    rw [hdest]
  · rw [routeOutput_packet_param b ipv4 header oif p,
      routeOutput_packet_param b ipv4 header oif q]
    cases RouteOutput b ipv4 header oif 0 <;> rfl

/-- Claim C10: whenever at least one route matches the destination, the
decision and the updated state are a function of the balancer state, the
aggregated Ipv4 object and the header's destination alone: varying the
packet argument or the requested output device does not change them. -/
theorem routeOutput_ignores_packet_and_oif (b : PerPacketLoadBalancer)
    (ipv4 : Option Ipv4State) (header : Ipv4Header) (oif oif' : Nat) (p q : Packet)
    (_hne : GetRouteInterfacesTo b header.destination ≠ []) :
    (RouteOutput b ipv4 header oif p).map (fun t => (t.1, t.2.2)) =
      (RouteOutput b ipv4 header oif' q).map (fun t => (t.1, t.2.2)) := by
  have hoif : RouteOutput b ipv4 header oif 0 = RouteOutput b ipv4 header oif' 0 := rfl
  rw [routeOutput_packet_param b ipv4 header oif p,
    routeOutput_packet_param b ipv4 header oif' q, ← hoif]
  cases RouteOutput b ipv4 header oif 0 <;> rfl

/-- Claim C8 (amended): the declared random generator m_rand plays no part
in the engine: the result of RouteOutput is the same for every generator
state, and the generator state is passed through unmodified — the only
selection strategy the code implements is the deterministic round-robin. -/
theorem routeOutput_independent_of_m_rand (b : PerPacketLoadBalancer)
    (ipv4 : Option Ipv4State) (header : Ipv4Header) (oif : Nat) (p : Packet) (r : Nat) :
    RouteOutput { b with m_rand := r } ipv4 header oif p =
      (RouteOutput b ipv4 header oif p).map
        (fun t => (t.1, t.2.1, { t.2.2 with m_rand := r })) := by
  by_cases hnil : GetRouteInterfacesTo b header.destination = []
  · rw [routeOutput_of_empty b ipv4 header oif p hnil,
      routeOutput_of_empty { b with m_rand := r } ipv4 header oif p hnil]
    rfl
  · cases hget : (GetRouteInterfacesTo b header.destination).get?
        b.m_currentInterfaceIndex with
    | none =>
        rw [routeOutput_of_get_none b ipv4 header oif p hnil hget,
          routeOutput_of_get_none { b with m_rand := r } ipv4 header oif p hnil hget]
        rfl
    | some sel =>
        by_cases hT : b.m_totalRoutes = 0
        · rw [routeOutput_step_latch b ipv4 header oif p sel hT hget,
            routeOutput_step_latch { b with m_rand := r } ipv4 header oif p sel hT hget]
          cases ipv4 with
          | none => rfl
          | some st =>
              simp only [Option.map_some', Option.some.injEq, Prod.mk.injEq]
              exact ⟨congrArg RouteResult.route (buildRoute_congr st _ _ rfl _ _), trivial, rfl⟩
        · rw [routeOutput_step b ipv4 header oif p sel hT hget,
            routeOutput_step { b with m_rand := r } ipv4 header oif p sel hT hget]
          cases ipv4 with
          | none => rfl
          | some st =>
              simp only [Option.map_some', Option.some.injEq, Prod.mk.injEq]
              trivial

/-- routeOutput_step with the aggregated Ipv4 object present, the match on
the object reduced away. -/
theorem routeOutput_step_some (b : PerPacketLoadBalancer) (st : Ipv4State)
    (header : Ipv4Header) (oif : Nat) (p : Packet) (sel : Nat)
    (hT : b.m_totalRoutes ≠ 0)
    (hget : (GetRouteInterfacesTo b header.destination).get? b.m_currentInterfaceIndex =
      some sel) :
    RouteOutput b (some st) header oif p =
      some (RouteResult.route (buildRoute st
              { b with m_currentInterfaceIndex :=
                  (b.m_currentInterfaceIndex + 1) % b.m_totalRoutes }
              header.destination sel),
            p,
            { b with m_currentInterfaceIndex :=
                (b.m_currentInterfaceIndex + 1) % b.m_totalRoutes }) :=
  (routeOutput_step b (some st) header oif p sel hT hget).trans rfl

/-- routeOutput_step with no aggregated Ipv4 object: null route plus
socket error, state already advanced. -/
theorem routeOutput_step_unroutable (b : PerPacketLoadBalancer)
    (header : Ipv4Header) (oif : Nat) (p : Packet) (sel : Nat)
    (hT : b.m_totalRoutes ≠ 0)
    (hget : (GetRouteInterfacesTo b header.destination).get? b.m_currentInterfaceIndex =
      some sel) :
    RouteOutput b none header oif p =
      some (RouteResult.unroutable, p,
            { b with m_currentInterfaceIndex :=
                (b.m_currentInterfaceIndex + 1) % b.m_totalRoutes }) :=
  (routeOutput_step b none header oif p sel hT hget).trans rfl

/-- routeOutput_step_latch with the aggregated Ipv4 object present. -/
theorem routeOutput_step_latch_some (b : PerPacketLoadBalancer) (st : Ipv4State)
    (header : Ipv4Header) (oif : Nat) (p : Packet) (sel : Nat)
    (hT : b.m_totalRoutes = 0)
    (hget : (GetRouteInterfacesTo b header.destination).get? b.m_currentInterfaceIndex =
      some sel) :
    RouteOutput b (some st) header oif p =
      some (RouteResult.route (buildRoute st
              { b with
                  m_totalRoutes := (GetRouteInterfacesTo b header.destination).length,
                  m_currentInterfaceIndex :=
                    (b.m_currentInterfaceIndex + 1) %
                      (GetRouteInterfacesTo b header.destination).length }
              header.destination sel),
            p,
            { b with
                m_totalRoutes := (GetRouteInterfacesTo b header.destination).length,
                m_currentInterfaceIndex :=
                  (b.m_currentInterfaceIndex + 1) %
                    (GetRouteInterfacesTo b header.destination).length }) :=
  (routeOutput_step_latch b (some st) header oif p sel hT hget).trans rfl

/-- routeOutput_step_latch with no aggregated Ipv4 object. -/
theorem routeOutput_step_latch_unroutable (b : PerPacketLoadBalancer)
    (header : Ipv4Header) (oif : Nat) (p : Packet) (sel : Nat)
    (hT : b.m_totalRoutes = 0)
    (hget : (GetRouteInterfacesTo b header.destination).get? b.m_currentInterfaceIndex =
      some sel) :
    RouteOutput b none header oif p =
      some (RouteResult.unroutable, p,
            { b with
                m_totalRoutes := (GetRouteInterfacesTo b header.destination).length,
                m_currentInterfaceIndex :=
                  (b.m_currentInterfaceIndex + 1) %
                    (GetRouteInterfacesTo b header.destination).length }) :=
  (routeOutput_step_latch b none header oif p sel hT hget).trans rfl

/-- Round-robin steady state: from a state whose stored total equals the
candidate count N and whose cursor c is in range, m further calls for the
same destination all succeed, the j-th (0-based) selecting candidate
(c + j) % N, and the final cursor is (c + m) % N. -/
theorem runCalls_roundRobin (st : Ipv4State) (header : Ipv4Header) (oif : Nat) (p : Packet)
    (ifaces : List Nat) (N : Nat) (hlen : ifaces.length = N) :
    ∀ (m : Nat) (b : PerPacketLoadBalancer) (c : Nat),
      b.m_totalRoutes = N → b.m_currentInterfaceIndex = c → c < N →
      GetRouteInterfacesTo b header.destination = ifaces →
      runCalls (some st) header oif p b m =
        some ({ b with m_currentInterfaceIndex := (c + m) % N },
          (List.range m).map (fun j =>
            RouteResult.route (buildRoute st b header.destination
              (ifaces.getD ((c + j) % N) 0)))) := by
  intro m
  induction m with
  | zero =>
      intro b c hT hc hcN hif
      have h0 : (c + 0) % N = b.m_currentInterfaceIndex := by
        rw [Nat.add_zero, Nat.mod_eq_of_lt hcN, hc]
      simp only [runCalls, List.range_zero, List.map_nil, h0]
  | succ n ih =>
      intro b c hT hc hcN hif
      have hNpos : 0 < N := Nat.lt_of_le_of_lt (Nat.zero_le c) hcN
      have hTne : b.m_totalRoutes ≠ 0 := by rw [hT]; omega
      have hget : (GetRouteInterfacesTo b header.destination).get?
          b.m_currentInterfaceIndex = some (ifaces.getD c 0) := by
        rw [hif, hc]
        exact get?_of_lt ifaces c (hlen ▸ hcN)
      have hstep := routeOutput_step_some b st header oif p (ifaces.getD c 0) hTne hget
      rw [hc, hT] at hstep
      have hih := ih ⟨b.routes, (c + 1) % N, N, b.m_rand⟩ ((c + 1) % N)
        rfl rfl (Nat.mod_lt _ hNpos)
        ((getRouteInterfacesTo_congr _ b rfl header.destination).trans hif)
      simp only [runCalls, hstep, hih]
      rw [hT, List.range_succ_eq_map, List.map_cons, List.map_map]
      simp only [Option.some.injEq, Prod.mk.injEq, List.cons.injEq]
      refine ⟨?_, ?_, ?_⟩
      · have harith : ((c + 1) % N + n) % N = (c + (n + 1)) % N := by
          rw [Nat.mod_add_mod]
          exact congrArg (fun z => z % N) (by omega)
        rw [harith]
      · have h0 : (c + 0) % N = c := by
          rw [Nat.add_zero]
          exact Nat.mod_eq_of_lt hcN
        rw [h0]
        exact congrArg RouteResult.route
          (buildRoute_congr st _ b rfl header.destination (ifaces.getD c 0))
      · apply List.map_congr_left
        intro j _
        simp only [Function.comp_apply]
        have harith : ((c + 1) % N + j) % N = (c + (j + 1)) % N := by
          rw [Nat.mod_add_mod]
          exact congrArg (fun z => z % N) (by omega)
        rw [harith]
        exact congrArg RouteResult.route
          (buildRoute_congr st _ b rfl header.destination _)

/-- On a duplicate-free list, getD at two in-range positions returning the
same value forces the positions to be equal. -/
theorem nodup_getD_injective (l : List Nat) (hnd : l.Nodup) (i j : Nat)
    (hi : i < l.length) (hj : j < l.length) (heq : l.getD i 0 = l.getD j 0) : i = j := by
  rw [List.getD_eq_getElem l 0 hi, List.getD_eq_getElem l 0 hj] at heq
  have hfin : (⟨i, hi⟩ : Fin l.length) = ⟨j, hj⟩ :=
    (List.Nodup.get_inj_iff hnd).mp heq
  exact congrArg Fin.val hfin

/-- Claim C2: from a freshly constructed balancer whose table yields N >= 1
candidates for the destination, N + 1 consecutive RouteOutput calls all
succeed, the k-th (0-based) call selecting candidate k % N: the first N
calls visit every candidate exactly once in table order, and call N + 1
selects the first candidate again. -/
theorem routeOutput_roundRobin_cycle (b : PerPacketLoadBalancer) (st : Ipv4State)
    (header : Ipv4Header) (oif : Nat) (p : Packet) (ifaces : List Nat) (N : Nat)
    (hfresh : b.m_currentInterfaceIndex = 0) (hT : b.m_totalRoutes = 0)
    (hif : GetRouteInterfacesTo b header.destination = ifaces)
    (hlen : ifaces.length = N) (hpos : 0 < N) :
    runCalls (some st) header oif p b (N + 1) =
      some ({ b with m_totalRoutes := N, m_currentInterfaceIndex := (N + 1) % N },
        (List.range (N + 1)).map (fun k =>
          RouteResult.route (buildRoute st b header.destination
            (ifaces.getD (k % N) 0)))) := by
  have hget : (GetRouteInterfacesTo b header.destination).get?
      b.m_currentInterfaceIndex = some (ifaces.getD 0 0) := by
    rw [hif, hfresh]
    exact get?_of_lt ifaces 0 (hlen ▸ hpos)
  have hstep := routeOutput_step_latch_some b st header oif p (ifaces.getD 0 0) hT hget
  rw [hfresh, hif, hlen] at hstep
  have hrest := runCalls_roundRobin st header oif p ifaces N hlen N
    ⟨b.routes, (0 + 1) % N, N, b.m_rand⟩ ((0 + 1) % N)
    rfl rfl (Nat.mod_lt _ hpos)
    ((getRouteInterfacesTo_congr _ b rfl header.destination).trans hif)
  simp only [runCalls, hstep, hrest]
  rw [List.range_succ_eq_map, List.map_cons, List.map_map]
  simp only [Option.some.injEq, Prod.mk.injEq, List.cons.injEq]
  refine ⟨?_, ?_, ?_⟩
  · have harith : ((0 + 1) % N + N) % N = (N + 1) % N := by
      rw [Nat.mod_add_mod]
      exact congrArg (fun z => z % N) (by omega)
    rw [harith]
  · have h0 : (0 : Nat) % N = 0 := Nat.zero_mod N
    rw [h0]
    exact congrArg RouteResult.route
      (buildRoute_congr st _ b rfl header.destination (ifaces.getD 0 0))
  · apply List.map_congr_left
    intro j _
    simp only [Function.comp_apply]
    have harith : ((0 + 1) % N + j) % N = (j + 1) % N := by
      rw [Nat.mod_add_mod]
      exact congrArg (fun z => z % N) (by omega)
    rw [harith]
    exact congrArg RouteResult.route
      (buildRoute_congr st _ b rfl header.destination _)

/-- Claim C7 (amended): when the stored total equals the current candidate
count N, the cursor is in range and the N candidate interfaces are pairwise
distinct, two RouteOutput calls in immediate succession for the same
destination select candidates c and (c + 1) % N; for N = 1 both selections
coincide, and for N > 1 the two selected interfaces always differ. -/
theorem routeOutput_consecutive_selections_distinct (b : PerPacketLoadBalancer)
    (st : Ipv4State) (header : Ipv4Header) (oif : Nat) (p : Packet)
    (ifaces : List Nat) (N c : Nat)
    (hif : GetRouteInterfacesTo b header.destination = ifaces)
    (hlen : ifaces.length = N) (hT : b.m_totalRoutes = N)
    (hc : b.m_currentInterfaceIndex = c) (hcN : c < N) (hnd : ifaces.Nodup) :
    ∃ bmid bend,
      RouteOutput b (some st) header oif p =
        some (RouteResult.route (buildRoute st bmid header.destination
          (ifaces.getD c 0)), p, bmid) ∧
      RouteOutput bmid (some st) header oif p =
        some (RouteResult.route (buildRoute st bend header.destination
          (ifaces.getD ((c + 1) % N) 0)), p, bend) ∧
      (N = 1 → ifaces.getD c 0 = ifaces.getD ((c + 1) % N) 0) ∧
      (1 < N → ifaces.getD c 0 ≠ ifaces.getD ((c + 1) % N) 0) := by
  subst hc
  subst hT
  have hTne : b.m_totalRoutes ≠ 0 := by omega
  have hget1 : (GetRouteInterfacesTo b header.destination).get?
      b.m_currentInterfaceIndex = some (ifaces.getD b.m_currentInterfaceIndex 0) := by
    rw [hif]
    exact get?_of_lt ifaces _ (hlen ▸ hcN)
  have hs1 := routeOutput_step_some b st header oif p
    (ifaces.getD b.m_currentInterfaceIndex 0) hTne hget1
  refine ⟨{ b with m_currentInterfaceIndex :=
      (b.m_currentInterfaceIndex + 1) % b.m_totalRoutes },
    { b with m_currentInterfaceIndex :=
      ((b.m_currentInterfaceIndex + 1) % b.m_totalRoutes + 1) % b.m_totalRoutes },
    hs1, ?_, ?_, ?_⟩
  · have hget2 : (GetRouteInterfacesTo
        { b with m_currentInterfaceIndex :=
            (b.m_currentInterfaceIndex + 1) % b.m_totalRoutes }
        header.destination).get?
        ((b.m_currentInterfaceIndex + 1) % b.m_totalRoutes) =
        some (ifaces.getD ((b.m_currentInterfaceIndex + 1) % b.m_totalRoutes) 0) := by
      rw [getRouteInterfacesTo_congr
        { b with m_currentInterfaceIndex :=
            (b.m_currentInterfaceIndex + 1) % b.m_totalRoutes } b rfl, hif]
      exact get?_of_lt ifaces _ (hlen ▸ Nat.mod_lt _ (by omega))
    exact routeOutput_step_some _ st header oif p
      (ifaces.getD ((b.m_currentInterfaceIndex + 1) % b.m_totalRoutes) 0) hTne hget2
  · intro hN1
    have hc0 : b.m_currentInterfaceIndex = 0 := by omega
    rw [hc0, hN1]
  · intro hN2 heq
    have hi : b.m_currentInterfaceIndex < ifaces.length := hlen ▸ hcN
    have hj : (b.m_currentInterfaceIndex + 1) % b.m_totalRoutes < ifaces.length :=
      hlen ▸ Nat.mod_lt _ (by omega)
    have hij := nodup_getD_injective ifaces hnd _ _ hi hj heq
    rcases Nat.lt_or_ge (b.m_currentInterfaceIndex + 1) b.m_totalRoutes with hlt | hge
    · rw [Nat.mod_eq_of_lt hlt] at hij
      omega
    · have he : b.m_currentInterfaceIndex + 1 = b.m_totalRoutes := by omega
      rw [← he, Nat.mod_self] at hij
      omega

/-- Claim C4 (amended): once a candidate is selected (non-empty candidate
list, cursor in range), the call ends in the null-route-with-socket-error
outcome exactly when the node has no aggregated Ipv4 object; whenever the
Ipv4 object is present a route is returned with no error — even when the
chosen interface has no configured address or the gateway is zero. -/
theorem routeOutput_unroutable_iff_no_ipv4 (b : PerPacketLoadBalancer)
    (ipv4 : Option Ipv4State) (header : Ipv4Header) (oif : Nat) (p : Packet)
    (hin : b.m_currentInterfaceIndex < (GetRouteInterfacesTo b header.destination).length) :
    ((∃ b', RouteOutput b ipv4 header oif p = some (RouteResult.unroutable, p, b')) ↔
      ipv4 = none) ∧
    (∀ st, ipv4 = some st →
      ∃ r b', RouteOutput b ipv4 header oif p = some (RouteResult.route r, p, b')) := by
  have hget := get?_of_lt (GetRouteInterfacesTo b header.destination)
    b.m_currentInterfaceIndex hin
  by_cases hT : b.m_totalRoutes = 0
  · cases ipv4 with
    | none =>
        have hs := routeOutput_step_latch_unroutable b header oif p _ hT hget
        exact ⟨⟨fun _ => rfl, fun _ => ⟨_, hs⟩⟩, fun st hst => by cases hst⟩
    | some st =>
        have hs := routeOutput_step_latch_some b st header oif p _ hT hget
        refine ⟨⟨?_, fun h => by cases h⟩, fun st' hst => ?_⟩
        · rintro ⟨b', hb'⟩
          rw [hs] at hb'
          simp only [Option.some.injEq, Prod.mk.injEq] at hb'
          exact RouteResult.noConfusion hb'.1
        · injection hst with h
          subst h
          exact ⟨_, _, hs⟩
  · cases ipv4 with
    | none =>
        have hs := routeOutput_step_unroutable b header oif p _ hT hget
        exact ⟨⟨fun _ => rfl, fun _ => ⟨_, hs⟩⟩, fun st hst => by cases hst⟩
    | some st =>
        have hs := routeOutput_step_some b st header oif p _ hT hget
        refine ⟨⟨?_, fun h => by cases h⟩, fun st' hst => ?_⟩
        · rintro ⟨b', hb'⟩
          rw [hs] at hb'
          simp only [Option.some.injEq, Prod.mk.injEq] at hb'
          exact RouteResult.noConfusion hb'.1
        · injection hst with h
          subst h
          exact ⟨_, _, hs⟩

/-! Concrete fixtures for the counterexamples, the undefined-behaviour
demonstration and the witnesses. -/

/-- A single route to the network 8/252 via interface 1. -/
def routes1 : List Ipv4RoutingTableEntry :=
  [ { dest := 8, destNetworkMask := 252, gateway := 100, interface := 1 } ]

/-- Two routes to the network 8/252 (interfaces 1, 2) and one route to the
network 16/252 (interface 3): the candidate count depends on the
destination. -/
def routesShrink : List Ipv4RoutingTableEntry :=
  [ { dest := 8, destNetworkMask := 252, gateway := 101, interface := 1 }
  , { dest := 8, destNetworkMask := 252, gateway := 102, interface := 2 }
  , { dest := 16, destNetworkMask := 252, gateway := 103, interface := 3 } ]

/-- One route to the network 8/252 (interface 9) and four routes to the
network 16/252 (interfaces 1..4). -/
def routesC7 : List Ipv4RoutingTableEntry :=
  [ { dest := 8, destNetworkMask := 252, gateway := 100, interface := 9 }
  , { dest := 16, destNetworkMask := 252, gateway := 201, interface := 1 }
  , { dest := 16, destNetworkMask := 252, gateway := 202, interface := 2 }
  , { dest := 16, destNetworkMask := 252, gateway := 203, interface := 3 }
  , { dest := 16, destNetworkMask := 252, gateway := 204, interface := 4 } ]

/-- A header whose destination 17 lies in the network 16/252. -/
def hdr17 : Ipv4Header :=
  { source := 1, destination := 17, protocol := 6, ttl := 64 }

/-- A header whose destination 100 matches none of the fixture routes. -/
def hdr100 : Ipv4Header :=
  { source := 1, destination := 100, protocol := 6, ttl := 64 }

/-- A header agreeing with hdr9 on the destination only. -/
def hdr9' : Ipv4Header :=
  { source := 2, destination := 9, protocol := 17, ttl := 3 }

/-- Claim C1 (undefined behaviour demonstration): reachable out-of-bounds
indexing.  From a fresh balancer over routesShrink, one call for
destination 9 latches m_totalRoutes to 2 and leaves the cursor at 1; the
next call, for destination 17, faces a candidate list of length 1 yet
indexes it at the stored cursor 1 with no reduction modulo the current
size — the out-of-range std vector access the embedding renders as none.
The claimed modulo-clamp of the cursor to the current candidate count does
not exist in the code. -/
theorem roundRobin_index_out_of_bounds :
    RouteOutput (mkPerPacketLoadBalancer routesShrink 0) (some st0) hdr9 0 0 =
      some (RouteResult.route
              { source := some 5, gateway := 101, destination := 9, outputDevice := 1 },
            0,
            { routes := routesShrink, m_currentInterfaceIndex := 1,
              m_totalRoutes := 2, m_rand := 0 }) ∧
    GetRouteInterfacesTo
      { routes := routesShrink, m_currentInterfaceIndex := 1,
        m_totalRoutes := 2, m_rand := 0 } 17 = [3] ∧
    RouteOutput
      { routes := routesShrink, m_currentInterfaceIndex := 1,
        m_totalRoutes := 2, m_rand := 0 } (some st0) hdr17 0 0 = none := by
  decide

/-- Claim C4 (counterexample to the claim as stated): with the Ipv4 object
present but the chosen interface having no configured address, the call is
not fatal to the packet: it returns a normal route (source left unset,
no socket error) instead of the Unroutable outcome the claim describes for
exactly this situation. -/
theorem routeOutput_missing_address_not_fatal :
    stNoAddr.addresses 1 = [] ∧
    RouteOutput (mkPerPacketLoadBalancer routes1 0) (some stNoAddr) hdr9 0 0 =
      some (RouteResult.route
              { source := none, gateway := 100, destination := 9, outputDevice := 1 },
            0,
            { routes := routes1, m_currentInterfaceIndex := 0,
              m_totalRoutes := 1, m_rand := 0 }) := by
  decide

/-- Claim C7 (counterexample to the claim as stated): the table routesC7 is
fixed (no topology change).  A first call for destination 9 latches
m_totalRoutes to 1.  Destination 17 then has a candidate set of fixed size
N = 4, yet two RouteOutput calls in immediate succession both select
interface 1, because the cursor is advanced modulo the latched total 1. -/
theorem roundRobin_repeats_after_latched_total :
    RouteOutput (mkPerPacketLoadBalancer routesC7 0) (some st0) hdr9 0 0 =
      some (RouteResult.route
              { source := some 5, gateway := 100, destination := 9, outputDevice := 9 },
            0,
            { routes := routesC7, m_currentInterfaceIndex := 0,
              m_totalRoutes := 1, m_rand := 0 }) ∧
    (GetRouteInterfacesTo
      { routes := routesC7, m_currentInterfaceIndex := 0,
        m_totalRoutes := 1, m_rand := 0 } 17).length = 4 ∧
    runCalls (some st0) hdr17 0 0
      { routes := routesC7, m_currentInterfaceIndex := 0,
        m_totalRoutes := 1, m_rand := 0 } 2 =
      some ({ routes := routesC7, m_currentInterfaceIndex := 0,
              m_totalRoutes := 1, m_rand := 0 },
        [RouteResult.route
          { source := some 5, gateway := 201, destination := 17, outputDevice := 1 },
         RouteResult.route
          { source := some 5, gateway := 201, destination := 17, outputDevice := 1 }]) := by
  decide

/-- Claim C8 (counterexample to the claim as stated): no uniform-random
draw happens.  Two fresh balancers differing only in the generator seed
(45 and 46) produce the identical first selection and leave their seeds
untouched, and the selection of the immediately following call differs
from the first: the selection is the deterministic, order-dependent
round-robin cursor, not an independent identically distributed draw from
the declared RNG. -/
theorem selection_ignores_rng_and_is_order_dependent :
    RouteOutput (mkPerPacketLoadBalancer routes4 45) (some st0) hdr9 0 0 =
      some (RouteResult.route
              { source := some 5, gateway := 101, destination := 9, outputDevice := 1 },
            0, { routes := routes4, m_currentInterfaceIndex := 1,
                 m_totalRoutes := 4, m_rand := 45 }) ∧
    RouteOutput (mkPerPacketLoadBalancer routes4 46) (some st0) hdr9 0 0 =
      some (RouteResult.route
              { source := some 5, gateway := 101, destination := 9, outputDevice := 1 },
            0, { routes := routes4, m_currentInterfaceIndex := 1,
                 m_totalRoutes := 4, m_rand := 46 }) ∧
    RouteOutput ({ routes := routes4, m_currentInterfaceIndex := 1, m_totalRoutes := 4, m_rand := 45 } : PerPacketLoadBalancer) (some st0) hdr9 0 0 =
      some (RouteResult.route
              { source := some 5, gateway := 102, destination := 9, outputDevice := 2 },
            0, { routes := routes4, m_currentInterfaceIndex := 2,
                 m_totalRoutes := 4, m_rand := 45 }) ∧
    ({ source := some 5, gateway := 101, destination := 9, outputDevice := 1 } :
      Ipv4Route) ≠
      { source := some 5, gateway := 102, destination := 9, outputDevice := 2 } := by
  decide

/-! Witnesses: each applies its claim theorem at a concrete input with the
hypotheses discharged there. -/

/-- Witness for routeOutput_roundRobin_cycle: over the 4 routes of routes4,
five consecutive calls for destination 9 select interfaces 1, 2, 3, 4, 1. -/
theorem routeOutput_roundRobin_cycle_witness :
    runCalls (some st0) hdr9 0 0 (mkPerPacketLoadBalancer routes4 0) 5 =
      some ({ routes := routes4, m_currentInterfaceIndex := 1, m_totalRoutes := 4, m_rand := 0 },
        [RouteResult.route { source := some 5, gateway := 101, destination := 9, outputDevice := 1 },
         RouteResult.route { source := some 5, gateway := 102, destination := 9, outputDevice := 2 },
         RouteResult.route { source := some 5, gateway := 103, destination := 9, outputDevice := 3 },
         RouteResult.route { source := some 5, gateway := 104, destination := 9, outputDevice := 4 },
         RouteResult.route { source := some 5, gateway := 101, destination := 9, outputDevice := 1 }]) :=
  (routeOutput_roundRobin_cycle (mkPerPacketLoadBalancer routes4 0) st0 hdr9 0 0
    [1, 2, 3, 4] 4 rfl rfl rfl rfl (by decide)).trans (by decide)

/-- Witness for routeOutput_no_match_falls_back: destination 100 matches no
route of routes4, so the call defers to the base-class lookup. -/
theorem routeOutput_no_match_falls_back_witness :
    RouteOutput (mkPerPacketLoadBalancer routes4 0) (some st0) hdr100 0 7 =
      some (RouteResult.fallback, 7, mkPerPacketLoadBalancer routes4 0) :=
  (routeOutput_no_match_falls_back (mkPerPacketLoadBalancer routes4 0) (some st0)
    hdr100 0 7 (by decide)).1

/-- Witness for routeOutput_unroutable_iff_no_ipv4: with one candidate and
the cursor in range, the unroutable outcome occurs exactly when no Ipv4
object is aggregated. -/
theorem routeOutput_unroutable_iff_no_ipv4_witness :
    (∃ b', RouteOutput (mkPerPacketLoadBalancer routes1 0) none hdr9 0 3 =
      some (RouteResult.unroutable, 3, b')) ↔ (none : Option Ipv4State) = none :=
  (routeOutput_unroutable_iff_no_ipv4 (mkPerPacketLoadBalancer routes1 0) none
    hdr9 0 3 (by decide)).1

/-- Witness for getRouteInterfacesTo_exact_matches at routes4 and
destination 9. -/
theorem getRouteInterfacesTo_exact_matches_witness :
    GetRouteInterfacesTo (mkPerPacketLoadBalancer routes4 0) 9 =
      ((mkPerPacketLoadBalancer routes4 0).routes.filter (fun route =>
        route.dest == 9 ||
          combineMask route.dest route.destNetworkMask ==
            combineMask 9 route.destNetworkMask)).map
        (fun route => route.interface) :=
  (getRouteInterfacesTo_exact_matches (mkPerPacketLoadBalancer routes4 0) 9).1

/-- Witness for totalRoutes_latch_and_cursor_advance: the first call of a
fresh balancer over routes4 latches the total to 4 and advances the cursor
to (0 + 1) % 4. -/
theorem totalRoutes_latch_and_cursor_advance_witness :
    ({ routes := routes4, m_currentInterfaceIndex := 1, m_totalRoutes := 4, m_rand := 7 } : PerPacketLoadBalancer).m_totalRoutes = 4 ∧
    ({ routes := routes4, m_currentInterfaceIndex := 1, m_totalRoutes := 4, m_rand := 7 } : PerPacketLoadBalancer).m_currentInterfaceIndex = (0 + 1) % 4 ∧
    ({ routes := routes4, m_currentInterfaceIndex := 1, m_totalRoutes := 4, m_rand := 7 } : PerPacketLoadBalancer).routes = routes4 :=
  (totalRoutes_latch_and_cursor_advance (mkPerPacketLoadBalancer routes4 7) (some st0)
    hdr9 0 0
    (RouteResult.route { source := some 5, gateway := 101, destination := 9, outputDevice := 1 })
    0
    { routes := routes4, m_currentInterfaceIndex := 1, m_totalRoutes := 4, m_rand := 7 }
    (by decide)).2 (by decide)

/-- Witness for routeOutput_consecutive_selections_distinct: with the total
latched to the candidate count 4, two successive calls select candidates 0
and 1 of [1, 2, 3, 4], which are distinct interfaces. -/
theorem routeOutput_consecutive_selections_distinct_witness :
    ∃ bmid bend,
      RouteOutput (⟨routes4, 0, 4, 0⟩ : PerPacketLoadBalancer) (some st0) hdr9 0 0 =
        some (RouteResult.route (buildRoute st0 bmid hdr9.destination
          ([1, 2, 3, 4].getD 0 0)), 0, bmid) ∧
      RouteOutput bmid (some st0) hdr9 0 0 =
        some (RouteResult.route (buildRoute st0 bend hdr9.destination
          ([1, 2, 3, 4].getD ((0 + 1) % 4) 0)), 0, bend) ∧
      ((4 : Nat) = 1 → [1, 2, 3, 4].getD 0 0 = [1, 2, 3, 4].getD ((0 + 1) % 4) 0) ∧
      ((1 : Nat) < 4 → [1, 2, 3, 4].getD 0 0 ≠ [1, 2, 3, 4].getD ((0 + 1) % 4) 0) :=
  routeOutput_consecutive_selections_distinct ⟨routes4, 0, 4, 0⟩ st0 hdr9 0 0
    [1, 2, 3, 4] 4 0 rfl rfl rfl rfl (by decide) (by decide)

/-- Witness for routeOutput_independent_of_m_rand: replacing the seed of a
fresh balancer by 77 changes nothing but the stored seed. -/
theorem routeOutput_independent_of_m_rand_witness :
    RouteOutput { mkPerPacketLoadBalancer routes4 3 with m_rand := 77 } (some st0) hdr9 0 0 =
      (RouteOutput (mkPerPacketLoadBalancer routes4 3) (some st0) hdr9 0 0).map
        (fun t => (t.1, t.2.1, { t.2.2 with m_rand := 77 })) :=
  routeOutput_independent_of_m_rand (mkPerPacketLoadBalancer routes4 3) (some st0) hdr9 0 0 77

/-- Witness for routeOutput_packet_frame: headers hdr9 and hdr9' agree only
on the destination, packets 5 and 8 differ. -/
theorem routeOutput_packet_frame_witness :
    (∀ res p' b', RouteOutput (mkPerPacketLoadBalancer routes4 0) (some st0) hdr9 0 5 =
      some (res, p', b') → p' = 5) ∧
    (hdr9.destination = hdr9'.destination →
      RouteOutput (mkPerPacketLoadBalancer routes4 0) (some st0) hdr9 0 5 =
        RouteOutput (mkPerPacketLoadBalancer routes4 0) (some st0) hdr9' 0 5) ∧
    (RouteOutput (mkPerPacketLoadBalancer routes4 0) (some st0) hdr9 0 5).map
        (fun t => (t.1, t.2.2)) =
      (RouteOutput (mkPerPacketLoadBalancer routes4 0) (some st0) hdr9 0 8).map
        (fun t => (t.1, t.2.2)) :=
  routeOutput_packet_frame (mkPerPacketLoadBalancer routes4 0) (some st0) hdr9 hdr9' 0 5 8

/-- Witness for routeOutput_ignores_packet_and_oif: with destination 9
matched, varying the packet (5 vs 8) and the requested output device
(0 vs 1) leaves decision and state unchanged. -/
theorem routeOutput_ignores_packet_and_oif_witness :
    (RouteOutput (mkPerPacketLoadBalancer routes4 0) (some st0) hdr9 0 5).map
        (fun t => (t.1, t.2.2)) =
      (RouteOutput (mkPerPacketLoadBalancer routes4 0) (some st0) hdr9 1 8).map
        (fun t => (t.1, t.2.2)) :=
  routeOutput_ignores_packet_and_oif (mkPerPacketLoadBalancer routes4 0) (some st0)
    hdr9 0 1 5 8 (by decide)

end Ns3LB
